import Mathlib

/-!
Verification of the github-mcp-server repository: a shallow embedding of
the tool handlers in `index.js` (and the alternate variants shipped in the
repository), together with theorems settling the specification's claims.

External effects are modelled as explicit parameters:
* `exec : String → Except String String` models `child_process.execSync`
  (the `.error` case is the raised exception's `message`);
* `api : String → Except String α` models one `githubApiRequest` call with a
  typed view of the parsed JSON body (`.error` is the rejection's message);
* `dateString : String → String` models `s => new Date(s).toDateString()`;
* `enc : String → String` models `encodeURIComponent`.
-/

namespace GithubMcp

/-- One element of an MCP tool response's content array: an object with a
`type` tag and a `text` payload, as produced by every handler in `index.js`. -/
structure ContentItem where
  type : String
  text : String
deriving DecidableEq

/-- The response envelope every handler returns: an object holding a
`content` array of items. -/
structure ToolResult where
  content : List ContentItem
deriving DecidableEq

/-- The record returned by `executeGitCommand` in `index.js`: either
`{success: true, output}` or `{success: false, error}`. -/
inductive CommandOutcome where
  | ok (output : String)
  | err (error : String)
deriving DecidableEq

/-- The `success` field of the record returned by `executeGitCommand`. -/
def CommandOutcome.success : CommandOutcome → Bool
  | .ok _ => true
  | .err _ => false

/-- Embedding of `executeGitCommand` (index.js lines 27-45): runs the command
through `execSync` (modelled by `exec`; environment overrides `GIT_ASKPASS`
etc. are part of the modelled external call) inside a try/catch; a thrown
error's message becomes the `error` field. The function is total: it never
raises, every exception is converted to a `{success: false, error}` record. -/
def executeGitCommand (exec : String → Except String String) (command : String) :
    CommandOutcome :=
  match exec command with
  | .ok output => .ok output
  | .error e => .err e

/-- JavaScript's `a || b` idiom on an optional string: `undefined` and the
empty string are falsy, so both fall back to the default. -/
def jsOr (o : Option String) (d : String) : String :=
  match o with
  | some s => if s = "" then d else s
  | none => d

/-- Whether the second list is a prefix of the first (character lists). -/
def listHasPrefix : List Char → List Char → Bool
  | _, [] => true
  | [], _ :: _ => false
  | a :: as, b :: bs => a == b && listHasPrefix as bs

/-- Whether `pat` occurs as a contiguous sublist of the second argument. -/
def listContainsAux (pat : List Char) : List Char → Bool
  | [] => pat.isEmpty
  | a :: rest => listHasPrefix (a :: rest) pat || listContainsAux pat rest

/-- Embedding of JavaScript's `s.includes(pat)` (substring containment),
as used by the git-clone handler's `url.includes('github.com')` test. -/
def strContains (s pat : String) : Bool :=
  listContainsAux pat.data s.data

/-- Replace every occurrence of the character `c` by the list `rep`. -/
def replaceChar (c : Char) (rep : List Char) : List Char → List Char
  | [] => []
  | a :: rest => (if a == c then rep else [a]) ++ replaceChar c rep rest

/-- Embedding of `message.replace(/"/g, '\\"')` from the git-commit handler:
every double-quote character in the message is replaced by a backslash
followed by a double quote. -/
def escapeQuotes (s : String) : String :=
  ⟨replaceChar '"' ['\\', '"'] s.data⟩

/-- Split the second list at the first occurrence of `pat`: returns the part
before the occurrence and the part after it (the occurrence removed), or
`none` when `pat` does not occur. -/
def breakOn (pat : List Char) : List Char → Option (List Char × List Char)
  | [] => if listHasPrefix [] pat then some ([], []) else none
  | a :: rest =>
    if listHasPrefix (a :: rest) pat then
      some ([], List.drop pat.length (a :: rest))
    else
      match breakOn pat rest with
      | some (pre, post) => some (a :: pre, post)
      | none => none

/-- Model of the WHATWG `URL` object as used by the git-clone handler: the
`protocol` (with trailing colon, e.g. "https:"), the `username` user-info
component, the `host`, and the `pathname`. -/
structure UrlObj where
  protocol : String
  username : String
  host : String
  pathname : String
deriving DecidableEq

/-- Model of `new URL(s)` for URLs of the shape scheme `://` host `/` path
with no user-info, port, query or fragment: the scheme is the part before the
first `://`, the host the part up to the next slash, the pathname the rest
(`/` when the input has no path, as the WHATWG parser normalises special-scheme
URLs). Inputs outside this shape — in particular any string without `://`,
on which `new URL` throws — are `none`, modelling the thrown `TypeError`. -/
def parseUrl (s : String) : Option UrlObj :=
  match breakOn "://".data s.data with
  | none => none
  | some (schemeCs, restCs) =>
    if schemeCs = [] || restCs = [] then none
    else
      match breakOn ['/'] restCs with
      | none => some { protocol := ⟨schemeCs⟩ ++ ":", username := "",
                       host := ⟨restCs⟩, pathname := "/" }
      | some (hostCs, pathCs) =>
        if hostCs = [] then none
        else some { protocol := ⟨schemeCs⟩ ++ ":", username := "",
                    host := ⟨hostCs⟩, pathname := ⟨'/' :: pathCs⟩ }

/-- Model of `urlObj.toString()` on the subset of `UrlObj` values produced by
`parseUrl` and the handler's `username` assignment (tokens containing only
characters the WHATWG serialiser leaves unescaped). -/
def UrlObj.toStr (u : UrlObj) : String :=
  u.protocol ++ "//" ++ (if u.username = "" then "" else u.username ++ "@") ++
    u.host ++ u.pathname

/-- The host component `new URL(s).host` under the `parseUrl` model. -/
def urlHost (s : String) : Option String :=
  (parseUrl s).map (fun u => u.host)

/-- Embedding of the clone-URL computation of the git-clone handler
(index.js lines 98-107): when a token is configured and the url string
contains the substring "github.com", the URL is parsed (`Except.error`
models `new URL` throwing) and, when its protocol is `https:`, the token is
inserted as the URL's username and the serialised URL is used; in every
other case the original url is used unchanged. -/
def cloneUrlOf (token url : String) : Except String String :=
  if token ≠ "" ∧ strContains url "github.com" then
    match parseUrl url with
    | none => .error "Invalid URL"
    | some u =>
      if u.protocol = "https:" then
        .ok (UrlObj.toStr { u with username := token })
      else
        .ok url
  else
    .ok url

/-- The success text of the git-clone handler (index.js line 118), built from
the original `url` and the optional `directory` (JavaScript truthiness: an
absent or empty directory contributes nothing). -/
def cloneSuccessText (url : String) (directory : Option String) : String :=
  "Successfully cloned repository from " ++ url ++
    (match directory with
     | some d => if d = "" then "" else " to " ++ d
     | none => "") ++ "."

/-- The git-clone handler's response to a command outcome
(index.js lines 114-128). -/
def cloneRespond (url : String) (directory : Option String) :
    CommandOutcome → ToolResult
  | .ok _ => ⟨[⟨"text", cloneSuccessText url directory⟩]⟩
  | .err e => ⟨[⟨"text", "Failed to clone repository: " ++ e⟩]⟩

/-- Embedding of the git-clone handler (index.js lines 97-129): computes the
clone URL (possibly embedding the token), builds the command line, runs it
through `executeGitCommand`, and formats the outcome. The `Except.error` case
models the handler's promise rejecting because `new URL(url)` threw. -/
def gitCloneHandler (token : String) (exec : String → Except String String)
    (url : String) (directory : Option String) : Except String ToolResult :=
  match cloneUrlOf token url with
  | .error e => .error e
  | .ok cloneUrl =>
    .ok (cloneRespond url directory
      (executeGitCommand exec
        (("git clone " ++ cloneUrl ++ " " ++ directory.getD "").trim)))

/-- The git-status handler's response to a command outcome
(index.js lines 140-154). -/
def statusRespond (directory : Option String) : CommandOutcome → ToolResult
  | .ok out =>
    ⟨[⟨"text", "Git status for " ++ jsOr directory "current directory" ++
        ":\n" ++ out⟩]⟩
  | .err e => ⟨[⟨"text", "Failed to get git status: " ++ e⟩]⟩

/-- Embedding of the git-status handler (index.js lines 132-155). -/
def gitStatusHandler (exec : String → Except String String)
    (directory : Option String) : ToolResult :=
  statusRespond directory
    (executeGitCommand exec ("cd " ++ jsOr directory "." ++ " && git status"))

/-- Embedding of the command-line construction of the git-commit handler
(part_000 lines 264-280): a `cd`, an optional `git add .`, and a
`git commit -m` with the double quotes of the message escaped, joined by
`&&`. The `add_all` flag is the value after its default (`true`) is applied. -/
def commitCommand (message : String) (directory : Option String)
    (add_all : Bool) : String :=
  let dir := jsOr directory "."
  let commands : List String := ["cd " ++ dir]
  let commands := if add_all then commands ++ ["git add ."] else commands
  let commands := commands ++
    ["git commit -m \"" ++ escapeQuotes message ++ "\""]
  String.intercalate " && " commands

/-- The git-commit handler's response to a command outcome
(part_000 lines 283-297). -/
def commitRespond : CommandOutcome → ToolResult
  | .ok out => ⟨[⟨"text", "Successfully committed changes:\n" ++ out⟩]⟩
  | .err e => ⟨[⟨"text", "Failed to commit changes: " ++ e⟩]⟩

/-- Embedding of the git-commit handler (part_000 lines 260-298). -/
def gitCommitHandler (exec : String → Except String String) (message : String)
    (directory : Option String) (add_all : Bool) : ToolResult :=
  commitRespond (executeGitCommand exec (commitCommand message directory add_all))

/-- The git-push handler's response to a command outcome
(part_000 lines 311-325). -/
def pushRespond (remote branch : String) : CommandOutcome → ToolResult
  | .ok out =>
    ⟨[⟨"text", "Successfully pushed changes to " ++ remote ++ "/" ++ branch ++
        ":\n" ++ out⟩]⟩
  | .err e => ⟨[⟨"text", "Failed to push changes: " ++ e⟩]⟩

/-- Embedding of the git-push handler (part_000 lines 301-326); `remote` and
`branch` are the values after their defaults ("origin", "main") are applied. -/
def gitPushHandler (exec : String → Except String String)
    (directory : Option String) (remote branch : String) : ToolResult :=
  pushRespond remote branch
    (executeGitCommand exec
      ("cd " ++ jsOr directory "." ++ " && git push " ++ remote ++ " " ++ branch))

/-- Embedding of the `res.on('end')` callback of `githubApiRequest` in
index.js (lines 67-79): any status code other than 200 rejects with an error
carrying the status code and the raw body text; on status 200 the body is
parsed (`parse` models `JSON.parse` together with the typed view of the
result), a parse failure rejecting with a distinct message. -/
def githubApiRequest_onEnd {α : Type} (parse : String → Except String α)
    (statusCode : Nat) (data : String) : Except String α :=
  if statusCode ≠ 200 then
    .error ("GitHub API returned " ++ toString statusCode ++ ": " ++ data)
  else
    match parse data with
    | .ok v => .ok v
    | .error m => .error ("Failed to parse GitHub API response: " ++ m)

/-- The two events that settle the promise of `githubApiRequest` in index.js:
a complete response (status code and accumulated body), or a request error
(`https.get`'s error event). -/
inductive HttpEvent where
  | response (statusCode : Nat) (data : String)
  | netError (msg : String)

/-- The settled outcome of `githubApiRequest` in index.js (lines 50-84) as a
function of the event that fired: a response goes through the end callback,
a request error rejects with the wrapping message of line 81. -/
def githubApiRequestOutcome {α : Type} (parse : String → Except String α) :
    HttpEvent → Except String α
  | .response s d => githubApiRequest_onEnd parse s d
  | .netError m => .error ("GitHub API request failed: " ++ m)

/-- Embedding of the `res.on('end')` callback of the alternate
`githubApiRequest` variant in part_000 (lines 167-183): status codes at and
above 400 reject with the status code and raw body; below 400 an empty body
resolves with the empty object (`emptyVal`) and a non-empty body is parsed,
a parse failure rejecting with this variant's distinct message. -/
def githubApiRequest_onEnd_alt {α : Type} (parse : String → Except String α)
    (emptyVal : α) (statusCode : Nat) (data : String) : Except String α :=
  if 400 ≤ statusCode then
    .error ("GitHub API returned " ++ toString statusCode ++ ": " ++ data)
  else if data = "" then
    .ok emptyVal
  else
    match parse data with
    | .ok v => .ok v
    | .error m => .error ("Failed to parse response: " ++ m)

/-- Embedding of the token resolution of start.sh (lines 12-22): the value of
`GITHUB_TOKEN` in the environment node inherits. When a local `.github_token`
file exists its contents are exported; otherwise, when `~/.github_token`
exists, its contents are exported; only when neither file exists does the
inherited environment value survive. `none` for a file argument means the
file does not exist. -/
def startShGithubToken (envToken : Option String)
    (localFile homeFile : Option String) : Option String :=
  match localFile with
  | some contents => some contents
  | none =>
    match homeFile with
    | some contents => some contents
    | none => envToken

/-- Embedding of index.js line 15: the in-process constant
`GITHUB_TOKEN = process.env.GITHUB_TOKEN || ''`. -/
def githubTokenInit (envToken : Option String) : String :=
  jsOr envToken ""

/-- The credential the server process ends up with when started through
start.sh: the token file resolution followed by index.js's initialisation. -/
def resolvedCredential (envToken localFile homeFile : Option String) : String :=
  githubTokenInit (startShGithubToken envToken localFile homeFile)

/-- Typed view of one repository object of the `GET /user/repos` response, as
consulted by the github-list-repos handler. -/
structure RepoSummary where
  name : String
  description : Option String
  «private» : Bool
deriving DecidableEq

/-- The endpoint string built by the github-list-repos handler
(index.js line 172). -/
def listReposEndpoint (limit : Nat) : String :=
  "/user/repos?sort=updated&per_page=" ++ toString limit

/-- One line of the github-list-repos listing (index.js lines 184-186),
for the repository at zero-based index `i`. -/
def repoLine (i : Nat) (r : RepoSummary) : String :=
  toString (i + 1) ++ ". " ++ r.name ++ ": " ++
    jsOr r.description "No description" ++ " (" ++
    (if r.«private» then "Private" else "Public") ++ ")"

/-- The credential-missing text of the github-list-repos handler
(index.js line 165). -/
def listReposMissingTokenText : String :=
  "GitHub token not configured. Please set the GITHUB_TOKEN environment variable to access repositories."

/-- Embedding of the github-list-repos handler (index.js lines 158-202).
The second component of the result records the endpoint of every
`githubApiRequest` call the handler performed, in order; `api` models the
call's settled outcome (a JSON `null` response behaves like the empty list:
both produce the no-repositories text). `limit` is the value after its
default (10) is applied. -/
def listReposHandler (token : String) (limit : Nat)
    (api : String → Except String (List RepoSummary)) :
    ToolResult × List String :=
  if token = "" then
    (⟨[⟨"text", listReposMissingTokenText⟩]⟩, [])
  else
    match api (listReposEndpoint limit) with
    | .ok repos =>
      if repos.length = 0 then
        (⟨[⟨"text", "No repositories found."⟩]⟩, [listReposEndpoint limit])
      else
        (⟨[⟨"text", "GitHub repositories:\n" ++
            String.intercalate "\n"
              (repos.enum.map (fun p => repoLine p.1 p.2))⟩]⟩,
          [listReposEndpoint limit])
    | .error msg =>
      (⟨[⟨"text", "Failed to list repositories: " ++ msg⟩]⟩,
        [listReposEndpoint limit])

/-- Typed view of the `license` sub-object of a repository-details response. -/
structure License where
  name : String
deriving DecidableEq

/-- Typed view of the `GET /repos/:owner/:repo` response as consulted by the
github-repo-info handler; optional fields are `none` when absent (JSON null
or missing). -/
structure RepoDetails where
  full_name : String
  description : Option String
  stargazers_count : Nat
  forks_count : Nat
  watchers_count : Nat
  open_issues_count : Nat
  created_at : String
  updated_at : String
  language : Option String
  license : Option License
  «private» : Bool
  html_url : String
deriving DecidableEq

/-- The 12 lines built by the github-repo-info handler (index.js lines
212-225), in source order; `dateString` models
`s => new Date(s).toDateString()`. -/
def repoDetailsLines (dateString : String → String) (d : RepoDetails) :
    List String :=
  ["Repository: " ++ d.full_name,
   "Description: " ++ jsOr d.description "No description",
   "Stars: " ++ toString d.stargazers_count,
   "Forks: " ++ toString d.forks_count,
   "Watchers: " ++ toString d.watchers_count,
   "Open Issues: " ++ toString d.open_issues_count,
   "Created: " ++ dateString d.created_at,
   "Last Updated: " ++ dateString d.updated_at,
   "Language: " ++ jsOr d.language "Not specified",
   "License: " ++ (match d.license with
                   | some l => l.name
                   | none => "Not specified"),
   "Visibility: " ++ (if d.«private» then "Private" else "Public"),
   "URL: " ++ d.html_url]

/-- The success text of the github-repo-info handler: the 12 lines joined by
newlines (index.js line 225). -/
def repoInfoSuccessText (dateString : String → String) (d : RepoDetails) :
    String :=
  String.intercalate "\n" (repoDetailsLines dateString d)

/-- Embedding of the github-repo-info handler (index.js lines 205-241). -/
def repoInfoHandler (dateString : String → String)
    (api : String → Except String RepoDetails) (repo : String) : ToolResult :=
  match api ("/repos/" ++ repo) with
  | .ok d => ⟨[⟨"text", repoInfoSuccessText dateString d⟩]⟩
  | .error msg => ⟨[⟨"text", "Failed to get repository details: " ++ msg⟩]⟩

/-- Typed view of one item of the `GET /search/repositories` response. -/
structure SearchRepo where
  full_name : String
  description : Option String
  stargazers_count : Nat
deriving DecidableEq

/-- Typed view of the `GET /search/repositories` response body: `items` is
`none` when the field is absent (the handler's `!searchResults.items`
test). -/
structure SearchResults where
  items : Option (List SearchRepo)
deriving DecidableEq

/-- The endpoint string built by the github-search-repos handler
(index.js line 250); `enc` models `encodeURIComponent`. -/
def searchEndpoint (enc : String → String) (query : String) (limit : Nat) :
    String :=
  "/search/repositories?q=" ++ enc query ++ "&per_page=" ++ toString limit

/-- One line of the github-search-repos listing (index.js lines 262-264). -/
def searchRepoLine (i : Nat) (r : SearchRepo) : String :=
  toString (i + 1) ++ ". " ++ r.full_name ++ ": " ++
    jsOr r.description "No description" ++ " (⭐ " ++
    toString r.stargazers_count ++ ")"

/-- The zero-results text of the github-search-repos handler
(index.js line 256). -/
def searchNoResultsText (query : String) : String :=
  "No repositories found matching \"" ++ query ++ "\"."

/-- Embedding of the github-search-repos handler (index.js lines 244-280);
`limit` is the value after its default (10) is applied. The handler is a
total function into `ToolResult`: the catch block turns an API rejection into
the failure text, so it never throws. -/
def searchReposHandler (enc : String → String)
    (api : String → Except String SearchResults) (query : String)
    (limit : Nat) : ToolResult :=
  match api (searchEndpoint enc query limit) with
  | .ok results =>
    match results.items with
    | none => ⟨[⟨"text", searchNoResultsText query⟩]⟩
    | some items =>
      if items.length = 0 then
        ⟨[⟨"text", searchNoResultsText query⟩]⟩
      else
        ⟨[⟨"text", "GitHub repositories matching \"" ++ query ++ "\":\n" ++
            String.intercalate "\n"
              (items.enum.map (fun p => searchRepoLine p.1 p.2))⟩]⟩
  | .error msg => ⟨[⟨"text", "Failed to search repositories: " ++ msg⟩]⟩

/-- Typed view of the `POST /user/repos` response as consulted by the
github-create-repo handler. -/
structure CreatedRepo where
  name : String
  html_url : String
deriving DecidableEq

/-- Embedding of the github-create-repo handler (part_000 lines 329-369).
The request method and JSON payload (name, description, private, auto_init)
are carried by the modelled `githubApiRequest` call and do not influence the
response shape, so `api` is consulted with the endpoint only. -/
def createRepoHandler (token : String)
    (api : String → Except String CreatedRepo) : ToolResult :=
  if token = "" then
    ⟨[⟨"text", "GitHub token not configured. Please set the GITHUB_TOKEN environment variable."⟩]⟩
  else
    match api "/user/repos" with
    | .ok repo =>
      ⟨[⟨"text", "Successfully created repository \"" ++ repo.name ++
          "\".\nURL: " ++ repo.html_url⟩]⟩
    | .error msg =>
      ⟨[⟨"text", "Failed to create repository: " ++ msg⟩]⟩

/-- A repository-details record with every optional field absent, used to
instantiate the repository-info formatting theorem. -/
def sampleRepoDetails : RepoDetails :=
  { full_name := "octocat/Hello-World"
    description := none
    stargazers_count := 80
    forks_count := 9
    watchers_count := 80
    open_issues_count := 0
    created_at := "2011-01-26T19:01:12Z"
    updated_at := "2011-01-26T19:14:43Z"
    language := none
    license := none
    «private» := false
    html_url := "https://github.com/octocat/Hello-World" }

/-- Helper: when the external exec succeeds on every command and the
git-clone handler returned a result (did not throw), that result is the
success response built from the original url and directory only. -/
theorem cloneHandler_ok_of_exec_ok (t url : String) (dir : Option String)
    (e : String → Except String String) (h : ∀ c, (e c).isOk = true)
    (r : ToolResult) (hr : gitCloneHandler t e url dir = .ok r) :
    r = ⟨[⟨"text", cloneSuccessText url dir⟩]⟩ := by
  unfold gitCloneHandler at hr
  cases hcu : cloneUrlOf t url with
  | error m => rw [hcu] at hr; cases hr
  | ok cu =>
    rw [hcu] at hr
    injection hr with h2
    unfold executeGitCommand at h2
    cases hx : e (("git clone " ++ cu ++ " " ++ dir.getD "").trim) with
    | error m =>
      have hk := h (("git clone " ++ cu ++ " " ++ dir.getD "").trim)
      rw [hx] at hk
      cases hk
    | ok out =>
      rw [hx] at h2
      rw [← h2]
      rfl

/-- C1 counterexample: the claim says every response with a status code in
200-399 and a well-formed JSON body resolves, but the `githubApiRequest` of
index.js rejects any status other than exactly 200: with a parse function
that accepts the body, a 201 response with a well-formed body rejects with
the status-and-body error message instead of resolving. -/
theorem c1_counterexample :
    (fun s => if s = "\x7b\x7d" then Except.ok 0 else Except.error "unexpected") "\x7b\x7d"
      = Except.ok 0
    ∧ 200 ≤ 201 ∧ 201 ≤ 399
    ∧ githubApiRequestOutcome
        (fun s => if s = "\x7b\x7d" then Except.ok 0 else Except.error "unexpected")
        (HttpEvent.response 201 "\x7b\x7d")
      = Except.error "GitHub API returned 201: \x7b\x7d" :=
  ⟨rfl, by decide, by decide, rfl⟩

/-- C1 (amended): the `githubApiRequest` of index.js rejects exactly when the
status code differs from 200, the body fails to parse, or the request errors;
any non-200 status rejects with an error carrying the status code and the raw
body text, and a 200 response with a well-formed body resolves with the
parsed value. The alternate variant of part_000 instead rejects exactly on
status codes at or above 400 (also carrying status code and raw body),
resolving every status below 400 — with an empty body resolving to the empty
object and a malformed body rejecting with its distinct parse message. -/
theorem c1_amended {α : Type} (parse : String → Except String α) :
    (∀ status data, status ≠ 200 →
      githubApiRequest_onEnd parse status data
        = .error ("GitHub API returned " ++ toString status ++ ": " ++ data))
    ∧ (∀ data v, parse data = .ok v →
        githubApiRequest_onEnd parse 200 data = .ok v)
    ∧ (∀ data m, parse data = .error m →
        githubApiRequest_onEnd parse 200 data
          = .error ("Failed to parse GitHub API response: " ++ m))
    ∧ (∀ m, githubApiRequestOutcome parse (.netError m)
        = .error ("GitHub API request failed: " ++ m))
    ∧ (∀ (emptyVal : α) status data, 400 ≤ status →
        githubApiRequest_onEnd_alt parse emptyVal status data
          = .error ("GitHub API returned " ++ toString status ++ ": " ++ data))
    ∧ (∀ (emptyVal : α) status data v, status < 400 → data ≠ "" →
        parse data = .ok v →
        githubApiRequest_onEnd_alt parse emptyVal status data = .ok v)
    ∧ (∀ (emptyVal : α) status, status < 400 →
        githubApiRequest_onEnd_alt parse emptyVal status "" = .ok emptyVal) := by
  refine ⟨?_, ?_, ?_, ?_, ?_, ?_, ?_⟩
  · intro status data h
    unfold githubApiRequest_onEnd
    rw [if_pos h]
  · intro data v h
    unfold githubApiRequest_onEnd
    rw [if_neg (fun hc => hc rfl), h]
  · intro data m h
    unfold githubApiRequest_onEnd
    rw [if_neg (fun hc => hc rfl), h]
  · intro m
    rfl
  · intro emptyVal status data h
    unfold githubApiRequest_onEnd_alt
    rw [if_pos h]
  · intro emptyVal status data v h hd hp
    unfold githubApiRequest_onEnd_alt
    rw [if_neg (by omega), if_neg hd, hp]
  · intro emptyVal status h
    unfold githubApiRequest_onEnd_alt
    rw [if_neg (by omega), if_pos rfl]

/-- C1 witness: the amended theorem applied at status 404 with body "oops"
for the primary variant, and at status 201 with a well-formed body for the
alternate variant. -/
theorem c1_witness :
    githubApiRequest_onEnd
        (fun s => if s = "\x7b\x7d" then Except.ok 0 else Except.error "bad")
        404 "oops"
      = Except.error "GitHub API returned 404: oops"
    ∧ githubApiRequest_onEnd_alt
        (fun s => if s = "\x7b\x7d" then Except.ok 0 else Except.error "bad")
        7 201 "\x7b\x7d"
      = Except.ok 0 := by
  constructor
  · exact (c1_amended _).1 404 "oops" (by decide)
  · exact (c1_amended _).2.2.2.2.2.1 7 201 "\x7b\x7d" 0 (by omega) (by decide) rfl

/-- C2 (evaluation of the code at the failing input): the git-clone handler
decides whether to embed the credential with a substring test on the whole
url string, not with a host comparison, so for the url
https://evil.com/github.com — whose host is evil.com, not the remote-hosting
domain — the credential "T" is embedded as the user-info component of the
clone URL handed to the Command Runner, instead of the url passing through
unchanged as the claim requires. -/
theorem c2_code_eval :
    urlHost "https://evil.com/github.com" = some "evil.com"
    ∧ "evil.com" ≠ "github.com"
    ∧ strContains "https://evil.com/github.com" "github.com" = true
    ∧ cloneUrlOf "T" "https://evil.com/github.com"
        = .ok "https://T@evil.com/github.com"
    ∧ "https://T@evil.com/github.com" ≠ "https://evil.com/github.com" :=
  ⟨rfl, by decide, rfl, rfl, by decide⟩

/-- C3 counterexample: with the environment variable holding the non-empty
value "ENVTOK" and a local .github_token file holding "FILETOK", start.sh
resolves the credential to the file contents, not the environment value —
start.sh consults the file first and overrides the environment, refuting the
claim that a non-empty environment value always wins. -/
theorem c3_counterexample :
    "ENVTOK" ≠ ""
    ∧ resolvedCredential (some "ENVTOK") (some "FILETOK") none = "FILETOK"
    ∧ "FILETOK" ≠ "ENVTOK" :=
  ⟨by decide, rfl, by decide⟩

/-- C3 (amended): credential resolution at process start consults the token
files first: a local .github_token file wins over everything, then the home
token file, and the environment variable is used only when neither file
exists; in particular, when a local token file exists the resolved credential
is independent of the environment value. -/
theorem c3_amended :
    (∀ env, startShGithubToken env none none = env)
    ∧ (∀ env hf c, startShGithubToken env (some c) hf = some c)
    ∧ (∀ env c, startShGithubToken env none (some c) = some c)
    ∧ (∀ env env2 hf hf2 c,
        resolvedCredential env (some c) hf = resolvedCredential env2 (some c) hf2) :=
  ⟨fun _ => rfl, fun _ _ _ => rfl, fun _ _ => rfl, fun _ _ _ _ _ => rfl⟩

/-- C4 counterexample: the success text is built from the original url, yet
it can still contain the credential — when the credential happens to be a
substring of that url. With credential "github.com" and url
https://github.com/o/r, the command succeeds and the returned success text
contains the credential as a substring, refuting the unconditional
"does not contain the credential" part of the claim. -/
theorem c4_counterexample :
    gitCloneHandler "github.com" (fun _ => .ok "") "https://github.com/o/r" none
      = .ok ⟨[⟨"text", "Successfully cloned repository from https://github.com/o/r."⟩]⟩
    ∧ strContains "Successfully cloned repository from https://github.com/o/r."
        "github.com" = true :=
  ⟨rfl, rfl⟩

/-- C4 (amended): for any two runs of the git-clone handler that agree on
url and directory, whose commands succeed, and that returned a result, the
returned ToolResults are identical regardless of the credential values, and
both equal the fixed success response built from the url and directory
alone — so the text contains a credential only in the degenerate case that
the credential is already a substring of that credential-independent text. -/
theorem c4_amended (t1 t2 url : String) (dir : Option String)
    (e1 e2 : String → Except String String)
    (h1 : ∀ c, (e1 c).isOk = true) (h2 : ∀ c, (e2 c).isOk = true)
    (r1 r2 : ToolResult)
    (hr1 : gitCloneHandler t1 e1 url dir = .ok r1)
    (hr2 : gitCloneHandler t2 e2 url dir = .ok r2) :
    r1 = r2 ∧ r1 = ⟨[⟨"text", cloneSuccessText url dir⟩]⟩ := by
  have k1 := cloneHandler_ok_of_exec_ok t1 url dir e1 h1 r1 hr1
  have k2 := cloneHandler_ok_of_exec_ok t2 url dir e2 h2 r2 hr2
  exact ⟨k1.trans k2.symm, k1⟩

/-- C4 witness: the amended theorem applied to two runs with credentials "a"
and "b" on the url https://github.com/o/r, an external exec that succeeds on
every command, and the concrete results the handler returns there. -/
theorem c4_witness :
    (⟨[⟨"text", "Successfully cloned repository from https://github.com/o/r."⟩]⟩ : ToolResult)
      = ⟨[⟨"text", cloneSuccessText "https://github.com/o/r" none⟩]⟩
    ∧ (⟨[⟨"text", "Successfully cloned repository from https://github.com/o/r."⟩]⟩ : ToolResult)
      = ⟨[⟨"text", cloneSuccessText "https://github.com/o/r" none⟩]⟩ :=
  c4_amended "a" "b" "https://github.com/o/r" none
    (fun _ => .ok "") (fun _ => .ok "") (fun _ => rfl) (fun _ => rfl)
    ⟨[⟨"text", "Successfully cloned repository from https://github.com/o/r."⟩]⟩
    ⟨[⟨"text", cloneSuccessText "https://github.com/o/r" none⟩]⟩ rfl rfl

/-- C5: executeGitCommand never raises — for every external exec behaviour
it returns either a success record or a failure record; the failure records
are exactly the outcomes with success = false; and each Command-Runner-backed
tool (clone, status, commit, push) maps a failure outcome to a normal
ToolResult whose text is exactly its fixed failure prefix followed by the
captured error message, so the text starts with the prefix and ends with the
full error with no character lost. -/
theorem c5_failure_roundtrip :
    (∀ exec c, (∃ out, executeGitCommand exec c = .ok out)
      ∨ (∃ e, executeGitCommand exec c = .err e))
    ∧ (∀ out, (CommandOutcome.ok out).success = true)
    ∧ (∀ e, (CommandOutcome.err e).success = false)
    ∧ (∀ url dir e, cloneRespond url dir (.err e)
        = ⟨[⟨"text", "Failed to clone repository: " ++ e⟩]⟩)
    ∧ (∀ dir e, statusRespond dir (.err e)
        = ⟨[⟨"text", "Failed to get git status: " ++ e⟩]⟩)
    ∧ (∀ e, commitRespond (.err e)
        = ⟨[⟨"text", "Failed to commit changes: " ++ e⟩]⟩)
    ∧ (∀ rem br e, pushRespond rem br (.err e)
        = ⟨[⟨"text", "Failed to push changes: " ++ e⟩]⟩) := by
  refine ⟨?_, fun _ => rfl, fun _ => rfl, fun _ _ _ => rfl, fun _ _ => rfl,
    fun _ => rfl, fun _ _ _ => rfl⟩
  intro exec c
  unfold executeGitCommand
  cases exec c with
  | error e => exact Or.inr ⟨e, rfl⟩
  | ok out => exact Or.inl ⟨out, rfl⟩

/-- C6: with no credential configured, the github-list-repos handler returns
the fixed credential-missing text and the list of githubApiRequest endpoints
it consulted is empty — the short-circuit happens before any network call,
for every limit and every possible API behaviour. -/
theorem c6_short_circuit :
    ∀ (limit : Nat) (api : String → Except String (List RepoSummary)),
      listReposHandler "" limit api
        = (⟨[⟨"text", listReposMissingTokenText⟩]⟩, []) :=
  fun _ _ => rfl

/-- C7: whenever the github-search-repos API call resolves with a result
whose items field is absent or an empty list, the handler returns exactly the
text built by interpolating the query into the no-results template — and the
handler is a total function into ToolResult, so it neither throws nor
rejects. -/
theorem c7_empty_search (enc : String → String)
    (api : String → Except String SearchResults) (query : String)
    (limit : Nat) (r : SearchResults)
    (h : api (searchEndpoint enc query limit) = .ok r)
    (hempty : r.items = none ∨ r.items = some []) :
    searchReposHandler enc api query limit
      = ⟨[⟨"text", searchNoResultsText query⟩]⟩ := by
  unfold searchReposHandler
  rw [h]
  obtain ⟨items⟩ := r
  rcases hempty with h2 | h2
  · have h3 : items = none := h2
    subst h3
    rfl
  · have h3 : items = some [] := h2
    subst h3
    rfl

/-- C7 witness: the theorem applied to a concrete API behaviour that resolves
with an absent items field for the query "tetris". -/
theorem c7_witness :
    searchReposHandler id (fun _ => .ok ⟨none⟩) "tetris" 10
      = ⟨[⟨"text", searchNoResultsText "tetris"⟩]⟩ :=
  c7_empty_search id (fun _ => .ok ⟨none⟩) "tetris" 10 ⟨none⟩ rfl (Or.inl rfl)

/-- C8: for every repoDetails object the github-repo-info success text is the
newline-join of a list of exactly 12 lines in the fixed order full name,
description, stars, forks, watchers, open issues, created date, last-updated
date, language, license, visibility, URL; an absent description yields the
"No description" line and an absent language or license yields the
"Not specified" line. -/
theorem c8_repo_info (dateString : String → String) (d : RepoDetails) :
    (repoDetailsLines dateString d).length = 12
    ∧ repoInfoSuccessText dateString d
        = String.intercalate "\n" (repoDetailsLines dateString d)
    ∧ (repoDetailsLines dateString d).get? 0
        = some ("Repository: " ++ d.full_name)
    ∧ (repoDetailsLines dateString d).get? 1
        = some ("Description: " ++ jsOr d.description "No description")
    ∧ (repoDetailsLines dateString d).get? 2
        = some ("Stars: " ++ toString d.stargazers_count)
    ∧ (repoDetailsLines dateString d).get? 3
        = some ("Forks: " ++ toString d.forks_count)
    ∧ (repoDetailsLines dateString d).get? 4
        = some ("Watchers: " ++ toString d.watchers_count)
    ∧ (repoDetailsLines dateString d).get? 5
        = some ("Open Issues: " ++ toString d.open_issues_count)
    ∧ (repoDetailsLines dateString d).get? 6
        = some ("Created: " ++ dateString d.created_at)
    ∧ (repoDetailsLines dateString d).get? 7
        = some ("Last Updated: " ++ dateString d.updated_at)
    ∧ (repoDetailsLines dateString d).get? 8
        = some ("Language: " ++ jsOr d.language "Not specified")
    ∧ (repoDetailsLines dateString d).get? 9
        = some ("License: " ++ (match d.license with
                                | some l => l.name
                                | none => "Not specified"))
    ∧ (repoDetailsLines dateString d).get? 10
        = some ("Visibility: " ++ (if d.«private» then "Private" else "Public"))
    ∧ (repoDetailsLines dateString d).get? 11 = some ("URL: " ++ d.html_url)
    ∧ (d.description = none →
        (repoDetailsLines dateString d).get? 1 = some "Description: No description")
    ∧ (d.language = none →
        (repoDetailsLines dateString d).get? 8 = some "Language: Not specified")
    ∧ (d.license = none →
        (repoDetailsLines dateString d).get? 9 = some "License: Not specified") := by
  refine ⟨rfl, rfl, rfl, rfl, rfl, rfl, rfl, rfl, rfl, rfl, rfl, rfl, rfl, rfl,
    ?_, ?_, ?_⟩
  · intro h
    unfold repoDetailsLines
    rw [h]
    rfl
  · intro h
    unfold repoDetailsLines
    rw [h]
    rfl
  · intro h
    unfold repoDetailsLines
    rw [h]
    rfl

/-- C8 witness: the theorem applied to a fully-absent-optional-fields record,
with the absence hypotheses discharged, exhibiting the substituted lines and
the 12-line length. -/
theorem c8_witness :
    (repoDetailsLines (fun _ => "Wed Jan 26 2011") sampleRepoDetails).length = 12
    ∧ (repoDetailsLines (fun _ => "Wed Jan 26 2011") sampleRepoDetails).get? 1
        = some "Description: No description"
    ∧ (repoDetailsLines (fun _ => "Wed Jan 26 2011") sampleRepoDetails).get? 8
        = some "Language: Not specified"
    ∧ (repoDetailsLines (fun _ => "Wed Jan 26 2011") sampleRepoDetails).get? 9
        = some "License: Not specified" := by
  obtain ⟨hlen, _, _, _, _, _, _, _, _, _, _, _, _, _, hdesc, hlang, hlic⟩ :=
    c8_repo_info (fun _ => "Wed Jan 26 2011") sampleRepoDetails
  exact ⟨hlen, hdesc rfl, hlang rfl, hlic rfl⟩

/-- C9: the git-commit handler builds its command line as a cd into the
(defaulted) directory, an optional git add of everything exactly when the
add_all flag is set, and a git commit whose message has every double quote
replaced by a backslash-escaped double quote, all joined by the two-ampersand
separator; with a concrete quoted message and defaults applied the command
evaluates to the literal escaped command line. -/
theorem c9_commit_command :
    (∀ m d, commitCommand m d true
      = "cd " ++ jsOr d "." ++ " && " ++ "git add ." ++ " && "
          ++ ("git commit -m \"" ++ escapeQuotes m ++ "\""))
    ∧ (∀ m d, commitCommand m d false
      = "cd " ++ jsOr d "." ++ " && "
          ++ ("git commit -m \"" ++ escapeQuotes m ++ "\""))
    ∧ escapeQuotes "say \"hi\"" = "say \\\"hi\\\""
    ∧ commitCommand "say \"hi\"" none true
      = "cd . && git add . && git commit -m \"say \\\"hi\\\"\""
    ∧ commitCommand "Update docs" (some "proj") false
      = "cd proj && git commit -m \"Update docs\"" :=
  ⟨fun _ _ => rfl, fun _ _ => rfl, rfl, rfl, rfl⟩

/-- C10 counterexample: the git-clone handler does not always return a
ToolResult — with a credential configured and the url github.com/owner/repo
(which contains the substring github.com but is not a parsable URL), the
URL constructor throws and the handler rejects instead of returning a
single-text-item result. -/
theorem c10_counterexample :
    gitCloneHandler "T" (fun _ => .ok "") "github.com/owner/repo" none
      = .error "Invalid URL" :=
  rfl

/-- C10 (amended): every handler that returns does so with a content list of
exactly one item of type "text": the git-clone handler on every input on
which it does not throw (it throws exactly when a credential is set and the
url contains the substring github.com but URL construction fails), and the
status, commit, push, create-repo, list-repos, repo-info and search-repos
handlers on every input and every external outcome unconditionally. -/
theorem c10_amended :
    (∀ t e url dir r, gitCloneHandler t e url dir = Except.ok r →
      ∃ s, r.content = [⟨"text", s⟩])
    ∧ (∀ e dir, ∃ s, (gitStatusHandler e dir).content = [⟨"text", s⟩])
    ∧ (∀ e m dir aa, ∃ s, (gitCommitHandler e m dir aa).content = [⟨"text", s⟩])
    ∧ (∀ e dir rem br, ∃ s, (gitPushHandler e dir rem br).content = [⟨"text", s⟩])
    ∧ (∀ t api, ∃ s, (createRepoHandler t api).content = [⟨"text", s⟩])
    ∧ (∀ t lim api, ∃ s, (listReposHandler t lim api).1.content = [⟨"text", s⟩])
    ∧ (∀ ds api repo, ∃ s, (repoInfoHandler ds api repo).content = [⟨"text", s⟩])
    ∧ (∀ enc api q lim, ∃ s, (searchReposHandler enc api q lim).content = [⟨"text", s⟩]) := by
  refine ⟨?_, ?_, ?_, ?_, ?_, ?_, ?_, ?_⟩
  · intro t e url dir r hr
    unfold gitCloneHandler at hr
    cases hcu : cloneUrlOf t url with
    | error m => rw [hcu] at hr; cases hr
    | ok cu =>
      rw [hcu] at hr
      injection hr with h2
      cases hx : executeGitCommand e (("git clone " ++ cu ++ " " ++ dir.getD "").trim) with
      | ok out =>
        rw [hx] at h2
        exact ⟨cloneSuccessText url dir, by rw [← h2]; rfl⟩
      | err er =>
        rw [hx] at h2
        exact ⟨"Failed to clone repository: " ++ er, by rw [← h2]; rfl⟩
  · intro e dir
    unfold gitStatusHandler
    cases executeGitCommand e ("cd " ++ jsOr dir "." ++ " && git status") with
    | ok out => exact ⟨_, rfl⟩
    | err er => exact ⟨_, rfl⟩
  · intro e m dir aa
    unfold gitCommitHandler
    cases executeGitCommand e (commitCommand m dir aa) with
    | ok out => exact ⟨_, rfl⟩
    | err er => exact ⟨_, rfl⟩
  · intro e dir rem br
    unfold gitPushHandler
    cases executeGitCommand e ("cd " ++ jsOr dir "." ++ " && git push " ++ rem ++ " " ++ br) with
    | ok out => exact ⟨_, rfl⟩
    | err er => exact ⟨_, rfl⟩
  · intro t api
    unfold createRepoHandler
    split
    · exact ⟨_, rfl⟩
    · cases api "/user/repos" with
      | error m => exact ⟨_, rfl⟩
      | ok repo => exact ⟨_, rfl⟩
  · intro t lim api
    unfold listReposHandler
    split
    · exact ⟨_, rfl⟩
    · cases api (listReposEndpoint lim) with
      | error m => exact ⟨_, rfl⟩
      | ok repos =>
        dsimp only
        by_cases hl : repos.length = 0
        · rw [if_pos hl]
          exact ⟨_, rfl⟩
        · rw [if_neg hl]
          exact ⟨_, rfl⟩
  · intro ds api repo
    unfold repoInfoHandler
    cases api ("/repos/" ++ repo) with
    | error m => exact ⟨_, rfl⟩
    | ok d => exact ⟨_, rfl⟩
  · intro enc api q lim
    unfold searchReposHandler
    cases api (searchEndpoint enc q lim) with
    | error m => exact ⟨_, rfl⟩
    | ok results =>
      cases results with
      | mk items =>
        cases items with
        | none => exact ⟨_, rfl⟩
        | some l =>
          dsimp only
          by_cases hl : l.length = 0
          · rw [if_pos hl]
            exact ⟨_, rfl⟩
          · rw [if_neg hl]
            exact ⟨_, rfl⟩

/-- C10 witness: the clone conjunct of the amended theorem applied to a run
that returns, with its hypothesis discharged by evaluation. -/
theorem c10_witness :
    ∃ s, (⟨[⟨"text", cloneSuccessText "https://github.com/o/r" none⟩]⟩ : ToolResult).content
      = [⟨"text", s⟩] :=
  c10_amended.1 "a" (fun _ => .ok "") "https://github.com/o/r" none
    ⟨[⟨"text", cloneSuccessText "https://github.com/o/r" none⟩]⟩ rfl

end GithubMcp
